import Mathlib

/-!
Verification of `lcserve` (langchain-serve): a shallow embedding of
`lcserve/backend/langchain_helper.py` and `lcserve/__main__.py`.

Python values are modelled as follows: run identifiers (UUIDs) are `Nat`;
the module-global `_span_map` dict is an association list with Python dict
semantics (assignment overwrites in place, otherwise appends); a Python
exception is a `PyErr` value, and a handler returns `state × Option PyErr`
where the second component is the exception (if any) that propagates to the
caller.  Effects on the tracing backend (`span.end()`) are recorded in an
`endedSpans` field.  Numbers flowing through token accounting are `Rat`
(Python ints embed into `Rat`; `round(n, 3)` on an integer returns it
unchanged, which `pythonRound3` reproduces).
-/

abbrev RunId := Nat

/-- Value of a span attribute (`span.set_attribute` accepts strings and ints here). -/
inductive AttrVal
  | vStr (s : String)
  | vInt (n : Int)
deriving DecidableEq

/-- Payload of a span event (`span.add_event`). -/
inductive EventData
  | strData (s : String)
  | strListData (l : List String)
  | agentData (tool toolInput logText : String)
deriving DecidableEq

structure SpanEvent where
  name : String
  data : EventData
deriving DecidableEq

/-- A tracing span as the handlers manipulate it. -/
structure Span where
  traceId : Nat
  spanId : Nat
  attributes : List (String × AttrVal)
  events : List SpanEvent
deriving DecidableEq

/-- The `TraceInfo` dataclass of `langchain_helper.py` (defaults as in the source). -/
structure TraceInfo where
  trace : Nat
  span : Nat
  action : String
  prompts : Option (List String) := none
  outputs : String := ""
  tokens : Option Rat := none
  cost : Option Rat := none
deriving DecidableEq

/-- A record emitted through the `"tracing"` logger. -/
inductive LogRecord
  | info (t : TraceInfo)
  | error (msg : String)
deriving DecidableEq

/-- Python exceptions that the embedded code can raise. -/
inductive PyErr
  | typeError
  | keyError
  | attributeError
  | validationError
deriving DecidableEq

/-- A Python dict as passed to `json.dumps`: either it serializes to some
JSON text or `json.dumps` raises `TypeError` on it. -/
inductive PyDict
  | serializable (js : String)
  | unserializable
deriving DecidableEq

def jsonDumps (d : PyDict) : Except PyErr String :=
  match d with
  | .serializable js => .ok js
  | .unserializable => .error .typeError

/-- `response` argument of `on_llm_end`: `llm_output` is an optional dict
(accessed only at key `"token_usage"`, itself a dict of ints), and
`generations` is a list of lists of generations, of which only `.text` is read. -/
structure LLMResult where
  llmOutput : Option (List (String × List (String × Int)))
  generations : List (List String)
deriving DecidableEq

abbrev SpanMap := List (RunId × Span)

/-- Python dict assignment `m[rid] = s`: overwrite in place if the key is
present (dict keys are unique, so replacing the first occurrence is dict
semantics), else append at the end (dicts preserve insertion order). -/
def mapSet (m : SpanMap) (rid : RunId) (s : Span) : SpanMap :=
  match m with
  | [] => [(rid, s)]
  | p :: t => if p.1 = rid then (rid, s) :: t else p :: mapSet t rid s

/-- Python `m.get(rid)`. -/
def mapGet (m : SpanMap) (rid : RunId) : Option Span :=
  match m with
  | [] => none
  | p :: t => if p.1 = rid then some p.2 else mapGet t rid

/-- Removal of a key from the dict. -/
def mapRemove (m : SpanMap) (rid : RunId) : SpanMap :=
  match m with
  | [] => []
  | p :: t => if p.1 = rid then t else p :: mapRemove t rid

/-- Python `m.pop(rid, None)`: the popped value (if any) and the remaining dict. -/
def mapPop (m : SpanMap) (rid : RunId) : Option Span × SpanMap :=
  match mapGet m rid with
  | some s => (some s, mapRemove m rid)
  | none => (none, m)

/-- Number of entries registered under `rid`. -/
def countKey (m : SpanMap) (rid : RunId) : Nat :=
  match m with
  | [] => 0
  | p :: t => (if p.1 = rid then 1 else 0) + countKey t rid

/-- State threaded through a tracing handler: the handler's own fields
(`tracer` truthiness, token counters), the module-global `_span_map`, the
`"tracing"` logger output, and the spans on which `span.end()` was called. -/
structure HandlerState where
  tracer : Bool
  traceId : Nat
  nextSpanId : Nat
  spanMap : SpanMap
  log : List LogRecord
  totalTokens : Rat
  totalCost : Rat
  endedSpans : List Span
deriving DecidableEq

def tracingErrorMsg : String := "Error in tracing callback handler"

/-- `TracingCallbackHandlerMixin._end_span`: pop the run id from `_span_map`
and call `span.end()` on the popped span, if any. -/
def endSpanState (st : HandlerState) (rid : RunId) : HandlerState :=
  match mapPop st.spanMap rid with
  | (some s, m) => { st with spanMap := m, endedSpans := st.endedSpans ++ [s] }
  | (none, m) => { st with spanMap := m }

/-- Banker's rounding of a rational to the nearest integer (Python `round`). -/
def roundHalfEven (q : Rat) : Int :=
  let f : Int := q.floor
  let r : Rat := q - (f : Rat)
  if r < (1 : Rat) / 2 then f
  else if (1 : Rat) / 2 < r then f + 1
  else if f % 2 = 0 then f else f + 1

/-- Python `round(q, 3)`. -/
def pythonRound3 (q : Rat) : Rat := ((roundHalfEven (q * 1000) : Int) : Rat) / 1000

/-- `"\n".join(" ".join(l.text for l in lst) for lst in generations)`. -/
def joinGenerations (gens : List (List String)) : String :=
  String.intercalate ("\n") (gens.map fun lst => String.intercalate (" ") lst)

/-- `sum(len(prompt) for prompt in prompts)`. -/
def promptsLen (prompts : List String) : Int :=
  ((prompts.map String.length).sum : Nat)

/-- `TracingCallbackHandlerMixin.on_llm_start`.  With typed arguments no
statement of its body raises, so the handler opens a span, sets its
attributes, adds the prompts event, logs a `TraceInfo` record with action
`on_llm_start`, and registers the span under `run_id`. -/
def on_llm_start (st : HandlerState) (_serialized : PyDict) (prompts : List String)
    (rid : RunId) (_parentRunId : Option RunId) : HandlerState × Option PyErr :=
  if !st.tracer then (st, none)
  else
    let span : Span :=
      { traceId := st.traceId
        spanId := st.nextSpanId
        attributes := [("otel.operation.name", .vStr ("langchain.llm")),
                       ("num_processed_prompts", .vInt prompts.length),
                       ("prompts_len", .vInt (promptsLen prompts))]
        events := [{ name := "prompts", data := .strListData prompts }] }
    let ti : TraceInfo :=
      { trace := st.traceId, span := st.nextSpanId, action := "on_llm_start",
        prompts := some prompts }
    ({ st with
        nextSpanId := st.nextSpanId + 1
        log := st.log ++ [LogRecord.info ti]
        spanMap := mapSet st.spanMap rid span }, none)

/-- Body of the `try` block of `on_llm_end`, in source order: look up the
span (no raise), subscript `response.llm_output["token_usage"]` (raises
`TypeError` when `llm_output` is `None`, `KeyError` when the key is absent),
set the usage attributes on the span (raises `AttributeError` when the span
is `None`), build the output text, log the `TraceInfo` record, and add the
outputs event.  Returns the state reached so far plus the raised exception. -/
def on_llm_end_body (st : HandlerState) (response : LLMResult) (rid : RunId) :
    HandlerState × Option PyErr :=
  match response.llmOutput with
  | none => (st, some .typeError)
  | some out =>
    match out.lookup ("token_usage") with
    | none => (st, some .keyError)
    | some usage =>
      match mapGet st.spanMap rid with
      | none => (st, some .attributeError)
      | some span =>
        let span1 : Span :=
          { span with attributes :=
              span.attributes ++ usage.map fun kv => (kv.1, AttrVal.vInt kv.2) }
        let st1 := { st with spanMap := mapSet st.spanMap rid span1 }
        let texts := joinGenerations response.generations
        let ti : TraceInfo :=
          { trace := span1.traceId, span := span1.spanId, action := "on_llm_end",
            outputs := texts,
            tokens := if st.totalTokens ≠ 0 then some (pythonRound3 st.totalTokens) else none,
            cost := if st.totalCost ≠ 0 then some (pythonRound3 st.totalCost) else none }
        let st2 := { st1 with log := st1.log ++ [LogRecord.info ti] }
        let span2 : Span :=
          { span1 with events := span1.events ++ [{ name := "outputs", data := .strData texts }] }
        ({ st2 with spanMap := mapSet st2.spanMap rid span2 }, none)

/-- `TracingCallbackHandlerMixin.on_llm_end`: guard on the tracer, run the
body under `try`/`except` (an exception is logged and swallowed), and in
`finally` call `_end_span(run_id)`. -/
def on_llm_end (st : HandlerState) (response : LLMResult) (rid : RunId) :
    HandlerState × Option PyErr :=
  if !st.tracer then (st, none)
  else
    let r := on_llm_end_body st response rid
    let st2 :=
      match r.2 with
      | some _ => { r.1 with log := r.1.log ++ [LogRecord.error tracingErrorMsg] }
      | none => r.1
    (endSpanState st2 rid, none)

/-- `TracingCallbackHandlerMixin.on_chain_start`.  The span is created and
its attribute set first; `json.dumps(inputs)` is evaluated while building the
inputs event, so if it raises the span id is consumed but nothing is
registered and the error is logged. -/
def on_chain_start (st : HandlerState) (_serialized : PyDict) (inputs : PyDict)
    (rid : RunId) (_parentRunId : Option RunId) : HandlerState × Option PyErr :=
  if !st.tracer then (st, none)
  else
    match jsonDumps inputs with
    | .error _ =>
        ({ st with
            nextSpanId := st.nextSpanId + 1
            log := st.log ++ [LogRecord.error tracingErrorMsg] }, none)
    | .ok js =>
      let span : Span :=
        { traceId := st.traceId
          spanId := st.nextSpanId
          attributes := [("otel.operation.name", .vStr ("langchain.chain"))]
          events := [{ name := "inputs", data := .strData js }] }
      ({ st with
          nextSpanId := st.nextSpanId + 1
          spanMap := mapSet st.spanMap rid span }, none)

/-- Body of the `try` block of `on_chain_end`: `span.add_event` is looked up
before its argument is evaluated, so a missing span raises `AttributeError`
first; then `json.dumps(outputs)` may raise. -/
def on_chain_end_body (st : HandlerState) (outputs : PyDict) (rid : RunId) :
    HandlerState × Option PyErr :=
  match mapGet st.spanMap rid with
  | none => (st, some .attributeError)
  | some span =>
    match jsonDumps outputs with
    | .error e => (st, some e)
    | .ok js =>
      let span1 : Span :=
        { span with events := span.events ++ [{ name := "outputs", data := .strData js }] }
      ({ st with spanMap := mapSet st.spanMap rid span1 }, none)

/-- `TracingCallbackHandlerMixin.on_chain_end`: tracer guard, `try`/`except`
around the body, `finally: self._end_span(run_id)`. -/
def on_chain_end (st : HandlerState) (outputs : PyDict) (rid : RunId) :
    HandlerState × Option PyErr :=
  if !st.tracer then (st, none)
  else
    let r := on_chain_end_body st outputs rid
    let st2 :=
      match r.2 with
      | some _ => { r.1 with log := r.1.log ++ [LogRecord.error tracingErrorMsg] }
      | none => r.1
    (endSpanState st2 rid, none)

/-- `TracingCallbackHandlerMixin.on_agent_action`: tracer guard, then attach
an `agent_action` event to the current span (a missing span raises
`AttributeError`, which is caught and logged); no span lifecycle. -/
def on_agent_action (st : HandlerState) (tool toolInput logText : String)
    (rid : RunId) (_parentRunId : Option RunId) : HandlerState × Option PyErr :=
  if !st.tracer then (st, none)
  else
    match mapGet st.spanMap rid with
    | none => ({ st with log := st.log ++ [LogRecord.error tracingErrorMsg] }, none)
    | some span =>
      let span1 : Span :=
        { span with events := span.events ++
            [{ name := "agent_action", data := .agentData tool toolInput logText }] }
      ({ st with spanMap := mapSet st.spanMap rid span1 }, none)

/-- `TracingCallbackHandlerMixin.on_tool_start`: opens a span, sets its
attribute, adds the input event and registers the span (no raise point with
typed arguments; no `TraceInfo` record is logged by this handler). -/
def on_tool_start (st : HandlerState) (_serialized : PyDict) (inputStr : String)
    (rid : RunId) (_parentRunId : Option RunId) : HandlerState × Option PyErr :=
  if !st.tracer then (st, none)
  else
    let span : Span :=
      { traceId := st.traceId
        spanId := st.nextSpanId
        attributes := [("otel.operation.name", .vStr ("langchain.tools"))]
        events := [{ name := "input", data := .strData inputStr }] }
    ({ st with
        nextSpanId := st.nextSpanId + 1
        spanMap := mapSet st.spanMap rid span }, none)

/-- Body of the `try` block of `on_tool_end`: attach the output event to the
current span (`AttributeError` when there is none). -/
def on_tool_end_body (st : HandlerState) (output : String) (rid : RunId) :
    HandlerState × Option PyErr :=
  match mapGet st.spanMap rid with
  | none => (st, some .attributeError)
  | some span =>
    let span1 : Span :=
      { span with events := span.events ++ [{ name := "output", data := .strData output }] }
    ({ st with spanMap := mapSet st.spanMap rid span1 }, none)

/-- `TracingCallbackHandlerMixin.on_tool_end`: unlike every other handler it
has no `if not self.tracer: return` guard — the `try` body and the
`finally: self._end_span(run_id)` always run. -/
def on_tool_end (st : HandlerState) (output : String) (rid : RunId) :
    HandlerState × Option PyErr :=
  let r := on_tool_end_body st output rid
  let st2 :=
    match r.2 with
    | some _ => { r.1 with log := r.1.log ++ [LogRecord.error tracingErrorMsg] }
    | none => r.1
  (endSpanState st2 rid, none)

/-- Models the external `langchain.callbacks.OpenAICallbackHandler.on_llm_end`
(third-party dependency): when `response.llm_output` carries a
`"token_usage"` dict it adds `token_usage.get("total_tokens", 0)` to the
cumulative `total_tokens` counter and the model-specific cost of the call
(computed from an external price table, here the parameter `costFn`) to the
cumulative `total_cost` counter; otherwise it returns without changes. -/
def openAICallback_on_llm_end (costFn : LLMResult → Rat) (st : HandlerState)
    (response : LLMResult) : HandlerState :=
  match response.llmOutput with
  | none => st
  | some out =>
    match out.lookup ("token_usage") with
    | none => st
    | some usage =>
      { st with
          totalTokens := st.totalTokens + (((usage.lookup ("total_tokens")).getD 0 : Int) : Rat)
          totalCost := st.totalCost + costFn response }

/-- `OpenAITracingCallbackHandler.on_llm_end`: first
`OpenAICallbackHandler.on_llm_end` updates the token/cost counters, then
`TracingCallbackHandlerMixin.on_llm_end` runs the tracing end logic. -/
def openAITracing_on_llm_end (costFn : LLMResult → Rat) (st : HandlerState)
    (response : LLMResult) (rid : RunId) : HandlerState × Option PyErr :=
  on_llm_end (openAICallback_on_llm_end costFn st response) response rid

/-- A coroutine as returned by an `async def` whose body never awaits: all
the work happens when the coroutine is resumed once. -/
structure Coro (α : Type) where
  resume : Unit → α

/-- Awaiting a coroutine runs it to completion. -/
def Coro.awaited {α : Type} (c : Coro α) : α := c.resume ()

/-- `AsyncTracingCallbackHandler.on_llm_start`: coroutine wrapper over the
synchronous `super().on_llm_start` with the same arguments. -/
def async_on_llm_start (st : HandlerState) (serialized : PyDict) (prompts : List String)
    (rid : RunId) (parentRunId : Option RunId) : Coro (HandlerState × Option PyErr) :=
  { resume := fun _ => on_llm_start st serialized prompts rid parentRunId }

/-- `AsyncTracingCallbackHandler.on_llm_end`. -/
def async_on_llm_end (st : HandlerState) (response : LLMResult) (rid : RunId) :
    Coro (HandlerState × Option PyErr) :=
  { resume := fun _ => on_llm_end st response rid }

/-- `AsyncTracingCallbackHandler.on_chain_start`. -/
def async_on_chain_start (st : HandlerState) (serialized : PyDict) (inputs : PyDict)
    (rid : RunId) (parentRunId : Option RunId) : Coro (HandlerState × Option PyErr) :=
  { resume := fun _ => on_chain_start st serialized inputs rid parentRunId }

/-- `AsyncTracingCallbackHandler.on_chain_end`. -/
def async_on_chain_end (st : HandlerState) (outputs : PyDict) (rid : RunId) :
    Coro (HandlerState × Option PyErr) :=
  { resume := fun _ => on_chain_end st outputs rid }

/-- `AsyncTracingCallbackHandler.on_agent_action`. -/
def async_on_agent_action (st : HandlerState) (tool toolInput logText : String)
    (rid : RunId) (parentRunId : Option RunId) : Coro (HandlerState × Option PyErr) :=
  { resume := fun _ => on_agent_action st tool toolInput logText rid parentRunId }

/-- `AsyncTracingCallbackHandler.on_tool_start`. -/
def async_on_tool_start (st : HandlerState) (serialized : PyDict) (inputStr : String)
    (rid : RunId) (parentRunId : Option RunId) : Coro (HandlerState × Option PyErr) :=
  { resume := fun _ => on_tool_start st serialized inputStr rid parentRunId }

/-- `AsyncTracingCallbackHandler.on_tool_end`. -/
def async_on_tool_end (st : HandlerState) (output : String) (rid : RunId) :
    Coro (HandlerState × Option PyErr) :=
  { resume := fun _ => on_tool_end st output rid }

/-- A JSON object sent over the websocket, as an association list. -/
abbrev JsonObj := List (String × String)

/-- `AsyncStreamingWebsocketCallbackHandler.on_llm_new_token`: the
`output_model(result=token, error="").dict()` call is the parameter
`outputModel` (a pydantic model may reject the value with a
`ValidationError`, which is the only exception caught); on rejection the raw
dict `{"result": token, "error": ""}` is sent instead.  `sent` is the list
of JSON messages already sent on the websocket. -/
def ws_on_llm_new_token (outputModel : String → Except PyErr JsonObj)
    (sent : List JsonObj) (token : String) : Except PyErr (List JsonObj) :=
  match outputModel token with
  | .ok d => .ok (sent ++ [d])
  | .error .validationError => .ok (sent ++ [[("result", token), ("error", "")]])
  | .error e => .error e

/-- `AsyncStreamingWebsocketCallbackHandler.on_text`: same body as
`on_llm_new_token` with the text chunk in place of the token. -/
def ws_on_text (outputModel : String → Except PyErr JsonObj)
    (sent : List JsonObj) (text : String) : Except PyErr (List JsonObj) :=
  match outputModel text with
  | .ok d => .ok (sent ++ [d])
  | .error .validationError => .ok (sent ++ [[("result", text), ("error", "")]])
  | .error e => .error e

/-- A binding of a process-wide builtin (`builtins.print` / `builtins.input`):
either some original function (identified by a token) or one of the wrappers
installed by `BuiltinsWrapper.__enter__`. -/
inductive Binding
  | original (id : Nat)
  | printWrapperFn
  | inputWrapperFn
deriving DecidableEq

/-- The process-wide `builtins.print` and `builtins.input` bindings. -/
structure BuiltinsState where
  printFn : Binding
  inputFn : Binding
deriving DecidableEq

/-- The `BuiltinsWrapper` context manager object: its constructor flags and
the `self._print` / `self._input` slots filled by `__enter__`. -/
structure BuiltinsWrapper where
  wrapPrint : Bool
  wrapInput : Bool
  savedPrint : Option Binding := none
  savedInput : Option Binding := none
deriving DecidableEq

/-- `BuiltinsWrapper.__enter__`: when the corresponding flag is set, save the
current binding on the wrapper object and install the wrapper function. -/
def BuiltinsWrapper.enterScope (w : BuiltinsWrapper) (b : BuiltinsState) :
    BuiltinsWrapper × BuiltinsState :=
  let r :=
    if w.wrapPrint then
      ({ w with savedPrint := some b.printFn }, { b with printFn := .printWrapperFn })
    else (w, b)
  if w.wrapInput then
    ({ r.1 with savedInput := some r.2.inputFn }, { r.2 with inputFn := .inputWrapperFn })
  else r

/-- `BuiltinsWrapper.__exit__`: when the corresponding flag is set, write the
saved binding back (reading the slot filled by `__enter__`). -/
def BuiltinsWrapper.exitScope (w : BuiltinsWrapper) (b : BuiltinsState) : BuiltinsState :=
  let b1 := if w.wrapPrint then { b with printFn := w.savedPrint.getD b.printFn } else b
  if w.wrapInput then { b1 with inputFn := w.savedInput.getD b1.inputFn } else b1

/-- The `with BuiltinsWrapper(...):` statement around a body that can raise:
`__enter__`, then the body, then `__exit__` on every exit path; since
`__exit__` returns `None`, a body exception propagates after restoration. -/
def withBuiltinsWrapper (w : BuiltinsWrapper) (b : BuiltinsState)
    (body : BuiltinsState → BuiltinsState × Option PyErr) : BuiltinsState × Option PyErr :=
  let s := w.enterScope b
  let r := body s.2
  (BuiltinsWrapper.exitScope s.1 r.1, r.2)

/-- A Deployment Config document as the validator reads it: the instance
tier values and autoscale-minimum values occurring in it. -/
structure JCloudConfig where
  instances : List String
  autoscaleMins : List Int
deriving DecidableEq

/-- The typed failures of `lcserve/errors.py`: `InvalidInstanceError`
carries the offending tier, `InvalidAutoscaleMinError` the offending value. -/
inductive ConfigError
  | invalidInstance (inst : String)
  | invalidAutoscaleMin (minVal : Int)
deriving DecidableEq

/-- Modelled from the spec: `validate_jcloud_config` lives in
`lcserve/utils.py`, which is not among the provided sources.  Per the spec
it checks that every instance-tier value in the document is a recognized
platform tier (the recognized set is the parameter `tiers`) and that every
autoscale-minimum is a number >= 0, raising `InvalidInstanceError` with the
offending tier, respectively `InvalidAutoscaleMinError` with the offending
value, on violation. -/
def validate_jcloud_config (tiers : List String) (cfg : JCloudConfig) :
    Option ConfigError :=
  match cfg.instances.find? (fun i => !(tiers.contains i)) with
  | some i => some (.invalidInstance i)
  | none =>
    match cfg.autoscaleMins.find? (fun m => decide (m < 0)) with
    | some m => some (.invalidAutoscaleMin m)
    | none => none

/-- Outcome of a click option callback: return `None` (falsy option value),
return the value, or raise `click.BadParameter` with a message. -/
inductive CallbackResult
  | noValue
  | ok (value : JCloudConfig)
  | badParameter (message : String)
deriving DecidableEq

/-- The user-facing message built for an invalid instance tier
(string of `__main__.py` line 207, apostrophes written as escapes). -/
def invalidInstanceMessage (inst : String) : String :=
  "Invalid instance \x27" ++ inst ++
    "\x27 found in config file\x27, please refer to https://docs.jina.ai/concepts/jcloud/configuration/#cpu-tiers for instance definition."

/-- The user-facing message built for an invalid autoscale minimum
(string of `__main__.py` line 211). -/
def invalidAutoscaleMinMessage (minVal : Int) : String :=
  "Invalid instance \x27" ++ toString minVal ++
    "\x27 found in config file\x27, it should be a number >= 0."

/-- `validate_jcloud_config_callback` of `__main__.py`: a falsy option value
returns `None` without validating; otherwise the config named by the value
is validated and a typed validation failure is converted into a
`click.BadParameter` carrying the corresponding message (the file read is
collapsed: `value` stands for the config document the path points to). -/
def validate_jcloud_config_callback (tiers : List String)
    (value : Option JCloudConfig) : CallbackResult :=
  match value with
  | none => .noValue
  | some cfg =>
    match validate_jcloud_config tiers cfg with
    | some (.invalidInstance i) => .badParameter (invalidInstanceMessage i)
    | some (.invalidAutoscaleMin m) => .badParameter (invalidAutoscaleMinMessage m)
    | none => .ok cfg

/-- Arguments of `push_app_to_hubble` in the order `serve_on_jcloud` passes
them. -/
structure PushArgs where
  app : String
  appDir : String
  requirements : Option (List String)
  tag : String
  version : String
  platform : Option String
  verbose : Bool
deriving DecidableEq

/-- The keyword arguments `serve_on_jcloud` passes to `get_flow_dict`. -/
structure FlowDict where
  module : String
  jcloud : Bool
  port : Nat
  name : String
  timeout : Nat
  appId : Option String
  gatewayId : String
  isWebsocket : Bool
  jcloudConfigPath : Option String
deriving DecidableEq

/-- The three awaited/remote stages of the deploy pipeline. -/
inductive DeployStage
  | pushStage
  | submitStage
  | pollStage
deriving BEq, DecidableEq

/-- Begin/finish markers for one stage: an awaited call occupies the
interval between its `stageStart` and its `stageFinish` event. -/
inductive DeployEvent
  | stageStart (s : DeployStage)
  | stageFinish (s : DeployStage)
deriving BEq, DecidableEq

/-- The environment `serve_on_jcloud` calls into: the helpers of
`lcserve/flow.py` and `get_random_tag`, all external to the provided
sources, modelled as unconstrained functions returning whatever the
platform answers. -/
structure JCloudEnv where
  randomTag : String
  getAppDir : String → String × String
  resolveConfig : Option String → String → Option String
  push : PushArgs → String × Bool
  deployApp : FlowDict → Option String → String
deriving Inhabited

/-- Everything observable about one `serve_on_jcloud` run: the ordered
event trace of the remote stages, the arguments pushed, the flow submitted,
and the app ids used. -/
structure DeployRun where
  trace : List DeployEvent
  pushedArgs : PushArgs
  submittedFlow : FlowDict
  submittedAppId : Option String
  polledAppId : String
  returnedAppId : String

/-- `serve_on_jcloud` of `__main__.py`: resolve the app dir and config, draw
a random tag, push the app to Hubble (awaited), submit the flow built by
`get_flow_dict` — whose `gateway_id` is the pushed gateway id joined
with `:` and the tag — to JCloud (awaited), then poll the status of the
returned app id (awaited).  Each awaited stage contributes its start/finish
interval to the trace in program order. -/
def serve_on_jcloud (env : JCloudEnv) (module : String) (name : String)
    (requirements : Option (List String)) (appId : Option String)
    (version : String) (timeout : Nat) (platform : Option String)
    (config : Option String) (verbose : Bool) : DeployRun :=
  let appAndDir := env.getAppDir module
  let config1 := env.resolveConfig config appAndDir.2
  let tag := env.randomTag
  let pushArgs : PushArgs :=
    { app := appAndDir.1, appDir := appAndDir.2, requirements := requirements,
      tag := tag, version := version, platform := platform, verbose := verbose }
  let pushRes := env.push pushArgs
  let flow : FlowDict :=
    { module := module, jcloud := true, port := 8080, name := name,
      timeout := timeout, appId := appId,
      gatewayId := pushRes.1 ++ ":" ++ tag,
      isWebsocket := pushRes.2, jcloudConfigPath := config1 }
  let newAppId := env.deployApp flow appId
  { trace := [.stageStart .pushStage, .stageFinish .pushStage] ++
             [.stageStart .submitStage, .stageFinish .submitStage] ++
             [.stageStart .pollStage, .stageFinish .pollStage]
    pushedArgs := pushArgs
    submittedFlow := flow
    submittedAppId := appId
    polledAppId := newAppId
    returnedAppId := newAppId }

/-- The default of the `--phase` option of the `list` command:
`",".join([Phase.Serving, Phase.Failed, Phase.Starting, Phase.Updating,
Phase.Paused])` (the jcloud `Phase` constants are string-valued). -/
def defaultPhaseFilter : String :=
  String.intercalate (",")
    ["Serving", "Failed", "Starting", "Updating", "Paused"]

/-- The arguments the `list` command passes to `list_apps_on_jcloud`. -/
structure ListAppsCall where
  phase : String
  name : Option String
deriving DecidableEq

/-- The `list` command: click substitutes the declared default when the user
passes no `--phase`, and the command forwards `phase` and `name` unchanged
to `list_apps_on_jcloud`. -/
def list_command (phase : Option String) (name : Option String) : ListAppsCall :=
  { phase := phase.getD defaultPhaseFilter, name := name }

theorem countKey_eq_zero_of_get_none {m : SpanMap} {rid : RunId}
    (h : mapGet m rid = none) : countKey m rid = 0 := by
  induction m with
  | nil => rfl
  | cons p t ih =>
    by_cases hp : p.1 = rid
    · simp [mapGet, hp] at h
    · simp [mapGet, hp] at h
      simp [countKey, hp, ih h]

theorem mapGet_eq_none_of_countKey_zero {m : SpanMap} {rid : RunId}
    (h : countKey m rid = 0) : mapGet m rid = none := by
  induction m with
  | nil => rfl
  | cons p t ih =>
    by_cases hp : p.1 = rid
    · simp [countKey, hp] at h
    · simp [countKey, hp] at h
      simp [mapGet, hp, ih h]

theorem mapSet_of_get_none {m : SpanMap} {rid : RunId} (s : Span)
    (h : mapGet m rid = none) : mapSet m rid s = m ++ [(rid, s)] := by
  induction m with
  | nil => rfl
  | cons p t ih =>
    by_cases hp : p.1 = rid
    · simp [mapGet, hp] at h
    · simp [mapGet, hp] at h
      simp [mapSet, hp, ih h]

theorem mapGet_append_single {m : SpanMap} {rid : RunId} (s : Span)
    (h : mapGet m rid = none) : mapGet (m ++ [(rid, s)]) rid = some s := by
  induction m with
  | nil => simp [mapGet]
  | cons p t ih =>
    by_cases hp : p.1 = rid
    · simp [mapGet, hp] at h
    · simp [mapGet, hp] at h
      simp [mapGet, hp, ih h]

theorem mapRemove_append_single {m : SpanMap} {rid : RunId} (s : Span)
    (h : mapGet m rid = none) : mapRemove (m ++ [(rid, s)]) rid = m := by
  induction m with
  | nil => simp [mapRemove]
  | cons p t ih =>
    by_cases hp : p.1 = rid
    · simp [mapGet, hp] at h
    · simp [mapGet, hp] at h
      simp [mapRemove, hp, ih h]

theorem countKey_append (m₁ m₂ : SpanMap) (rid : RunId) :
    countKey (m₁ ++ m₂) rid = countKey m₁ rid + countKey m₂ rid := by
  induction m₁ with
  | nil => simp [countKey]
  | cons p t ih => simp [countKey, ih]; omega

theorem mapGet_mapSet_self (m : SpanMap) (rid : RunId) (s : Span) :
    mapGet (mapSet m rid s) rid = some s := by
  induction m with
  | nil => simp [mapSet, mapGet]
  | cons p t ih =>
    by_cases hp : p.1 = rid
    · simp [mapSet, hp, mapGet]
    · simp [mapSet, hp, mapGet, ih]

theorem mapRemove_mapSet (m : SpanMap) (rid : RunId) (s : Span) :
    mapRemove (mapSet m rid s) rid = mapRemove m rid := by
  induction m with
  | nil => simp [mapSet, mapRemove]
  | cons p t ih =>
    by_cases hp : p.1 = rid
    · simp [mapSet, hp, mapRemove]
    · simp [mapSet, hp, mapRemove, ih]

theorem mapGet_mapRemove_of_countKey_le_one {m : SpanMap} {rid : RunId}
    (h : countKey m rid ≤ 1) : mapGet (mapRemove m rid) rid = none := by
  induction m with
  | nil => rfl
  | cons p t ih =>
    by_cases hp : p.1 = rid
    · simp [countKey, hp] at h
      simp [mapRemove, hp, mapGet_eq_none_of_countKey_zero h]
    · simp [countKey, hp] at h
      simp [mapRemove, hp, mapGet, ih h]

theorem endSpanState_of_get_none {st : HandlerState} {rid : RunId}
    (h : mapGet st.spanMap rid = none) : endSpanState st rid = st := by
  simp [endSpanState, mapPop, h]

theorem endSpanState_of_get_some {st : HandlerState} {rid : RunId} {s : Span}
    (h : mapGet st.spanMap rid = some s) :
    endSpanState st rid =
      { st with spanMap := mapRemove st.spanMap rid,
                endedSpans := st.endedSpans ++ [s] } := by
  simp [endSpanState, mapPop, h]

theorem on_llm_end_body_frame (st : HandlerState) (response : LLMResult) (rid : RunId) :
    mapRemove (on_llm_end_body st response rid).1.spanMap rid = mapRemove st.spanMap rid
    ∧ (on_llm_end_body st response rid).1.endedSpans = st.endedSpans
    ∧ (mapGet (on_llm_end_body st response rid).1.spanMap rid).isSome
        = (mapGet st.spanMap rid).isSome := by
  unfold on_llm_end_body
  cases ho : response.llmOutput with
  | none => simp [ho]
  | some out =>
    cases hu : out.lookup ("token_usage") with
    | none => simp [ho, hu]
    | some usage =>
      cases hg : mapGet st.spanMap rid with
      | none => simp [ho, hu, hg]
      | some span => simp [ho, hu, hg, mapRemove_mapSet, mapGet_mapSet_self]

theorem on_llm_end_body_of_get_none (st : HandlerState) (response : LLMResult)
    (rid : RunId) (h : mapGet st.spanMap rid = none) :
    (on_llm_end_body st response rid).1 = st
    ∧ (on_llm_end_body st response rid).2.isSome := by
  unfold on_llm_end_body
  cases ho : response.llmOutput with
  | none => simp [ho]
  | some out =>
    cases hu : out.lookup ("token_usage") with
    | none => simp [ho, hu]
    | some usage => simp [ho, hu, h]

theorem on_llm_end_cleanup {st : HandlerState} {rid : RunId} (response : LLMResult)
    (s0 : Span) (hT : st.tracer = true) (hs : mapGet st.spanMap rid = some s0) :
    (on_llm_end st response rid).1.spanMap = mapRemove st.spanMap rid
    ∧ (on_llm_end st response rid).1.endedSpans.length = st.endedSpans.length + 1
    ∧ (on_llm_end st response rid).2 = none := by
  obtain ⟨hrem, hes, hsome⟩ := on_llm_end_body_frame st response rid
  rw [hs] at hsome
  obtain ⟨s1, hs1⟩ := Option.isSome_iff_exists.mp hsome
  unfold on_llm_end
  simp only [hT, Bool.not_true, Bool.false_eq_true, if_false]
  cases hr2 : (on_llm_end_body st response rid).2 with
  | some e => simp [hr2, endSpanState, mapPop, hs1, hrem, hes]
  | none => simp [hr2, endSpanState, mapPop, hs1, hrem, hes]

theorem on_chain_end_body_frame (st : HandlerState) (outputs : PyDict) (rid : RunId) :
    mapRemove (on_chain_end_body st outputs rid).1.spanMap rid = mapRemove st.spanMap rid
    ∧ (on_chain_end_body st outputs rid).1.endedSpans = st.endedSpans
    ∧ (mapGet (on_chain_end_body st outputs rid).1.spanMap rid).isSome
        = (mapGet st.spanMap rid).isSome := by
  unfold on_chain_end_body
  cases hg : mapGet st.spanMap rid with
  | none => simp [hg]
  | some span =>
    cases hj : jsonDumps outputs with
    | error e => simp [hg, hj]
    | ok js => simp [hg, hj, mapRemove_mapSet, mapGet_mapSet_self]

theorem on_chain_end_body_of_get_none (st : HandlerState) (outputs : PyDict)
    (rid : RunId) (h : mapGet st.spanMap rid = none) :
    on_chain_end_body st outputs rid = (st, some PyErr.attributeError) := by
  unfold on_chain_end_body
  simp [h]

theorem on_chain_end_cleanup {st : HandlerState} {rid : RunId} (outputs : PyDict)
    (s0 : Span) (hT : st.tracer = true) (hs : mapGet st.spanMap rid = some s0) :
    (on_chain_end st outputs rid).1.spanMap = mapRemove st.spanMap rid
    ∧ (on_chain_end st outputs rid).1.endedSpans.length = st.endedSpans.length + 1
    ∧ (on_chain_end st outputs rid).2 = none := by
  obtain ⟨hrem, hes, hsome⟩ := on_chain_end_body_frame st outputs rid
  rw [hs] at hsome
  obtain ⟨s1, hs1⟩ := Option.isSome_iff_exists.mp hsome
  unfold on_chain_end
  simp only [hT, Bool.not_true, Bool.false_eq_true, if_false]
  cases hr2 : (on_chain_end_body st outputs rid).2 with
  | some e => simp [hr2, endSpanState, mapPop, hs1, hrem, hes]
  | none => simp [hr2, endSpanState, mapPop, hs1, hrem, hes]

theorem on_tool_end_body_of_get_none (st : HandlerState) (output : String)
    (rid : RunId) (h : mapGet st.spanMap rid = none) :
    on_tool_end_body st output rid = (st, some PyErr.attributeError) := by
  unfold on_tool_end_body
  simp [h]

theorem on_tool_end_cleanup {st : HandlerState} {rid : RunId} (output : String)
    (s0 : Span) (hs : mapGet st.spanMap rid = some s0) :
    (on_tool_end st output rid).1.spanMap = mapRemove st.spanMap rid
    ∧ (on_tool_end st output rid).1.endedSpans = st.endedSpans ++
        [{ s0 with events := s0.events ++ [{ name := "output", data := .strData output }] }]
    ∧ (on_tool_end st output rid).1.log = st.log
    ∧ (on_tool_end st output rid).2 = none := by
  unfold on_tool_end on_tool_end_body
  simp [hs, endSpanState, mapPop, mapGet_mapSet_self, mapRemove_mapSet]

theorem on_llm_start_fresh (st : HandlerState) (ser : PyDict) (prompts : List String)
    (rid : RunId) (pr : Option RunId) (hT : st.tracer = true)
    (h : mapGet st.spanMap rid = none) :
    (on_llm_start st ser prompts rid pr).1.spanMap = st.spanMap ++
        [(rid, { traceId := st.traceId, spanId := st.nextSpanId,
                 attributes := [("otel.operation.name", .vStr ("langchain.llm")),
                                ("num_processed_prompts", .vInt prompts.length),
                                ("prompts_len", .vInt (promptsLen prompts))],
                 events := [{ name := "prompts", data := .strListData prompts }] })]
    ∧ (on_llm_start st ser prompts rid pr).1.tracer = true
    ∧ (on_llm_start st ser prompts rid pr).1.endedSpans = st.endedSpans
    ∧ (on_llm_start st ser prompts rid pr).2 = none := by
  refine ⟨?_, ?_, ?_, ?_⟩ <;> simp [on_llm_start, hT, mapSet_of_get_none _ h]

theorem on_chain_start_fresh (st : HandlerState) (ser : PyDict) (js : String)
    (rid : RunId) (pr : Option RunId) (hT : st.tracer = true)
    (h : mapGet st.spanMap rid = none) :
    (on_chain_start st ser (PyDict.serializable js) rid pr).1.spanMap = st.spanMap ++
        [(rid, { traceId := st.traceId, spanId := st.nextSpanId,
                 attributes := [("otel.operation.name", .vStr ("langchain.chain"))],
                 events := [{ name := "inputs", data := .strData js }] })]
    ∧ (on_chain_start st ser (PyDict.serializable js) rid pr).1.tracer = true
    ∧ (on_chain_start st ser (PyDict.serializable js) rid pr).1.endedSpans = st.endedSpans
    ∧ (on_chain_start st ser (PyDict.serializable js) rid pr).2 = none := by
  refine ⟨?_, ?_, ?_, ?_⟩ <;>
    simp [on_chain_start, jsonDumps, hT, mapSet_of_get_none _ h]

theorem on_tool_start_fresh (st : HandlerState) (ser : PyDict) (inputStr : String)
    (rid : RunId) (pr : Option RunId) (hT : st.tracer = true)
    (h : mapGet st.spanMap rid = none) :
    (on_tool_start st ser inputStr rid pr).1.spanMap = st.spanMap ++
        [(rid, { traceId := st.traceId, spanId := st.nextSpanId,
                 attributes := [("otel.operation.name", .vStr ("langchain.tools"))],
                 events := [{ name := "input", data := .strData inputStr }] })]
    ∧ (on_tool_start st ser inputStr rid pr).1.tracer = true
    ∧ (on_tool_start st ser inputStr rid pr).1.endedSpans = st.endedSpans
    ∧ (on_tool_start st ser inputStr rid pr).2 = none := by
  refine ⟨?_, ?_, ?_, ?_⟩ <;> simp [on_tool_start, hT, mapSet_of_get_none _ h]

/-- C1: for a run identifier with no currently registered span, a start
lifecycle event (model, chain, or tool) registers exactly one span under
that identifier in the process-wide span registry, and the matching end
event — for an arbitrary end argument, including ones whose token-usage
reading, output-text construction or output serialization raises — closes
that span (one more ended span) and removes it from the registry, leaving
the registry exactly as it was before the pair. -/
theorem C1_start_end_registry_roundtrip
    (st : HandlerState) (rid : RunId) (ser : PyDict) (prompts : List String)
    (response : LLMResult) (pr : Option RunId) (chainInputs : String)
    (chainOutputs : PyDict) (toolInputStr toolOutput : String)
    (hT : st.tracer = true) (hFresh : mapGet st.spanMap rid = none) :
    (countKey (on_llm_start st ser prompts rid pr).1.spanMap rid = 1
     ∧ (on_llm_start st ser prompts rid pr).1.spanMap.length = st.spanMap.length + 1
     ∧ (on_llm_end (on_llm_start st ser prompts rid pr).1 response rid).1.spanMap = st.spanMap
     ∧ mapGet (on_llm_end (on_llm_start st ser prompts rid pr).1 response rid).1.spanMap rid
         = none
     ∧ (on_llm_end (on_llm_start st ser prompts rid pr).1 response rid).1.endedSpans.length
         = st.endedSpans.length + 1)
    ∧ (countKey (on_chain_start st ser (PyDict.serializable chainInputs) rid pr).1.spanMap rid = 1
       ∧ (on_chain_start st ser (PyDict.serializable chainInputs) rid pr).1.spanMap.length
           = st.spanMap.length + 1
       ∧ (on_chain_end (on_chain_start st ser (PyDict.serializable chainInputs) rid pr).1
            chainOutputs rid).1.spanMap = st.spanMap
       ∧ mapGet (on_chain_end (on_chain_start st ser (PyDict.serializable chainInputs) rid pr).1
            chainOutputs rid).1.spanMap rid = none
       ∧ (on_chain_end (on_chain_start st ser (PyDict.serializable chainInputs) rid pr).1
            chainOutputs rid).1.endedSpans.length = st.endedSpans.length + 1)
    ∧ (countKey (on_tool_start st ser toolInputStr rid pr).1.spanMap rid = 1
       ∧ (on_tool_start st ser toolInputStr rid pr).1.spanMap.length = st.spanMap.length + 1
       ∧ (on_tool_end (on_tool_start st ser toolInputStr rid pr).1 toolOutput rid).1.spanMap
           = st.spanMap
       ∧ mapGet (on_tool_end (on_tool_start st ser toolInputStr rid pr).1 toolOutput
            rid).1.spanMap rid = none
       ∧ (on_tool_end (on_tool_start st ser toolInputStr rid pr).1 toolOutput
            rid).1.endedSpans.length = st.endedSpans.length + 1) := by
  have hz : countKey st.spanMap rid = 0 := countKey_eq_zero_of_get_none hFresh
  refine ⟨?_, ?_, ?_⟩
  · obtain ⟨hmap, htr, hes, _⟩ := on_llm_start_fresh st ser prompts rid pr hT hFresh
    obtain ⟨spx, hget1⟩ :
        ∃ spx, mapGet (on_llm_start st ser prompts rid pr).1.spanMap rid = some spx :=
      ⟨_, by rw [hmap]; exact mapGet_append_single _ hFresh⟩
    obtain ⟨hrm, hlen, _⟩ := on_llm_end_cleanup response spx htr hget1
    refine ⟨?_, ?_, ?_, ?_, ?_⟩
    · rw [hmap, countKey_append, hz]; simp [countKey]
    · rw [hmap]; simp
    · rw [hrm, hmap, mapRemove_append_single _ hFresh]
    · rw [hrm, hmap, mapRemove_append_single _ hFresh]; exact hFresh
    · rw [hlen, hes]
  · obtain ⟨hmap, htr, hes, _⟩ := on_chain_start_fresh st ser chainInputs rid pr hT hFresh
    obtain ⟨spx, hget1⟩ :
        ∃ spx, mapGet (on_chain_start st ser (PyDict.serializable chainInputs) rid
            pr).1.spanMap rid = some spx :=
      ⟨_, by rw [hmap]; exact mapGet_append_single _ hFresh⟩
    obtain ⟨hrm, hlen, _⟩ := on_chain_end_cleanup chainOutputs spx htr hget1
    refine ⟨?_, ?_, ?_, ?_, ?_⟩
    · rw [hmap, countKey_append, hz]; simp [countKey]
    · rw [hmap]; simp
    · rw [hrm, hmap, mapRemove_append_single _ hFresh]
    · rw [hrm, hmap, mapRemove_append_single _ hFresh]; exact hFresh
    · rw [hlen, hes]
  · obtain ⟨hmap, htr, hes, _⟩ := on_tool_start_fresh st ser toolInputStr rid pr hT hFresh
    obtain ⟨spx, hget1⟩ :
        ∃ spx, mapGet (on_tool_start st ser toolInputStr rid pr).1.spanMap rid = some spx :=
      ⟨_, by rw [hmap]; exact mapGet_append_single _ hFresh⟩
    obtain ⟨hrm, hspans, _, _⟩ := on_tool_end_cleanup toolOutput spx hget1
    refine ⟨?_, ?_, ?_, ?_, ?_⟩
    · rw [hmap, countKey_append, hz]; simp [countKey]
    · rw [hmap]; simp
    · rw [hrm, hmap, mapRemove_append_single _ hFresh]
    · rw [hrm, hmap, mapRemove_append_single _ hFresh]; exact hFresh
    · rw [hspans, hes]; simp

/-- A concrete handler state used by witnesses: tracer set, empty registry. -/
def sampleState : HandlerState :=
  { tracer := true, traceId := 0, nextSpanId := 0, spanMap := [], log := [],
    totalTokens := 0, totalCost := 0, endedSpans := [] }

/-- Witness for C1 at a concrete fresh run id, with an end event whose
token-usage read raises (`llm_output = None`) and whose chain outputs do not
serialize. -/
theorem C1_start_end_registry_roundtrip_witness :
    (countKey (on_llm_start sampleState (.serializable ("s")) [("p")] 0 none).1.spanMap 0 = 1
     ∧ (on_llm_start sampleState (.serializable ("s")) [("p")] 0 none).1.spanMap.length
         = sampleState.spanMap.length + 1
     ∧ (on_llm_end (on_llm_start sampleState (.serializable ("s")) [("p")] 0 none).1
          ⟨none, []⟩ 0).1.spanMap = sampleState.spanMap
     ∧ mapGet (on_llm_end (on_llm_start sampleState (.serializable ("s")) [("p")] 0 none).1
          ⟨none, []⟩ 0).1.spanMap 0 = none
     ∧ (on_llm_end (on_llm_start sampleState (.serializable ("s")) [("p")] 0 none).1
          ⟨none, []⟩ 0).1.endedSpans.length = sampleState.endedSpans.length + 1)
    ∧ (countKey (on_chain_start sampleState (.serializable ("s"))
          (PyDict.serializable ("ci")) 0 none).1.spanMap 0 = 1
       ∧ (on_chain_start sampleState (.serializable ("s"))
            (PyDict.serializable ("ci")) 0 none).1.spanMap.length
           = sampleState.spanMap.length + 1
       ∧ (on_chain_end (on_chain_start sampleState (.serializable ("s"))
            (PyDict.serializable ("ci")) 0 none).1 PyDict.unserializable 0).1.spanMap
           = sampleState.spanMap
       ∧ mapGet (on_chain_end (on_chain_start sampleState (.serializable ("s"))
            (PyDict.serializable ("ci")) 0 none).1 PyDict.unserializable 0).1.spanMap 0 = none
       ∧ (on_chain_end (on_chain_start sampleState (.serializable ("s"))
            (PyDict.serializable ("ci")) 0 none).1 PyDict.unserializable 0).1.endedSpans.length
           = sampleState.endedSpans.length + 1)
    ∧ (countKey (on_tool_start sampleState (.serializable ("s")) ("ti") 0 none).1.spanMap 0 = 1
       ∧ (on_tool_start sampleState (.serializable ("s")) ("ti") 0 none).1.spanMap.length
           = sampleState.spanMap.length + 1
       ∧ (on_tool_end (on_tool_start sampleState (.serializable ("s")) ("ti") 0 none).1
            ("to") 0).1.spanMap = sampleState.spanMap
       ∧ mapGet (on_tool_end (on_tool_start sampleState (.serializable ("s")) ("ti") 0 none).1
            ("to") 0).1.spanMap 0 = none
       ∧ (on_tool_end (on_tool_start sampleState (.serializable ("s")) ("ti") 0 none).1
            ("to") 0).1.endedSpans.length = sampleState.endedSpans.length + 1) :=
  C1_start_end_registry_roundtrip sampleState 0 (.serializable ("s")) [("p")]
    ⟨none, []⟩ none ("ci") PyDict.unserializable ("ti") ("to") rfl rfl

/-- C2: an end lifecycle handler (`on_llm_end`, `on_chain_end`,
`on_tool_end`) invoked for a run identifier with no registered span does not
raise to the caller: the internal failure is caught, an error record is
logged, the registry is untouched, and the handler returns normally. -/
theorem C2_end_without_matching_start
    (st : HandlerState) (rid : RunId) (response : LLMResult)
    (chainOutputs : PyDict) (toolOutput : String)
    (hT : st.tracer = true) (h : mapGet st.spanMap rid = none) :
    on_llm_end st response rid
        = ({ st with log := st.log ++ [LogRecord.error tracingErrorMsg] }, none)
    ∧ on_chain_end st chainOutputs rid
        = ({ st with log := st.log ++ [LogRecord.error tracingErrorMsg] }, none)
    ∧ on_tool_end st toolOutput rid
        = ({ st with log := st.log ++ [LogRecord.error tracingErrorMsg] }, none) := by
  refine ⟨?_, ?_, ?_⟩
  · obtain ⟨h1, h2⟩ := on_llm_end_body_of_get_none st response rid h
    obtain ⟨e, he⟩ := Option.isSome_iff_exists.mp h2
    unfold on_llm_end
    simp [hT, he, h1, endSpanState, mapPop, h]
  · unfold on_chain_end
    simp [hT, on_chain_end_body_of_get_none st chainOutputs rid h, endSpanState, mapPop, h]
  · unfold on_tool_end
    simp [on_tool_end_body_of_get_none st toolOutput rid h, endSpanState, mapPop, h]

/-- Witness for C2 at a concrete unregistered run id. -/
theorem C2_end_without_matching_start_witness :
    on_llm_end sampleState ⟨some [(("token_usage"), [(("total_tokens"), 5)])], [[("x")]]⟩ 0
        = ({ sampleState with
              log := sampleState.log ++ [LogRecord.error tracingErrorMsg] }, none)
    ∧ on_chain_end sampleState (PyDict.serializable ("o")) 0
        = ({ sampleState with
              log := sampleState.log ++ [LogRecord.error tracingErrorMsg] }, none)
    ∧ on_tool_end sampleState ("t") 0
        = ({ sampleState with
              log := sampleState.log ++ [LogRecord.error tracingErrorMsg] }, none) :=
  C2_end_without_matching_start sampleState 0
    ⟨some [(("token_usage"), [(("total_tokens"), 5)])], [[("x")]]⟩
    (PyDict.serializable ("o")) ("t") rfl rfl

/-- C10: when the tracer is unset every other lifecycle handler returns
immediately with the state untouched, but `on_tool_end` has no tracer guard:
it still attaches the output event to the registered span and always closes
that span and removes it from the registry. -/
theorem C10_tool_end_has_no_tracer_guard
    (st : HandlerState) (rid : RunId) (ser : PyDict) (prompts : List String)
    (response : LLMResult) (pr : Option RunId) (inputs outputs : PyDict)
    (tool toolInput logText inputStr output : String) (s0 : Span)
    (hT : st.tracer = false) (hs : mapGet st.spanMap rid = some s0)
    (hcount : countKey st.spanMap rid = 1) :
    on_llm_start st ser prompts rid pr = (st, none)
    ∧ on_llm_end st response rid = (st, none)
    ∧ on_chain_start st ser inputs rid pr = (st, none)
    ∧ on_chain_end st outputs rid = (st, none)
    ∧ on_agent_action st tool toolInput logText rid pr = (st, none)
    ∧ on_tool_start st ser inputStr rid pr = (st, none)
    ∧ (on_tool_end st output rid).1.spanMap = mapRemove st.spanMap rid
    ∧ mapGet (on_tool_end st output rid).1.spanMap rid = none
    ∧ (on_tool_end st output rid).1.endedSpans = st.endedSpans ++
        [{ s0 with events := s0.events ++ [{ name := "output", data := .strData output }] }]
    ∧ (on_tool_end st output rid).2 = none := by
  obtain ⟨hrm, hspans, _, h2⟩ := on_tool_end_cleanup output s0 hs
  refine ⟨?_, ?_, ?_, ?_, ?_, ?_, hrm, ?_, hspans, h2⟩
  · simp [on_llm_start, hT]
  · simp [on_llm_end, hT]
  · simp [on_chain_start, hT]
  · simp [on_chain_end, hT]
  · simp [on_agent_action, hT]
  · simp [on_tool_start, hT]
  · rw [hrm]
    exact mapGet_mapRemove_of_countKey_le_one (le_of_eq hcount)

/-- A concrete registered span used by witnesses. -/
def sampleSpan : Span := { traceId := 0, spanId := 0, attributes := [], events := [] }

/-- A concrete handler state with the tracer unset and one registered span. -/
def sampleStateNoTracer : HandlerState :=
  { tracer := false, traceId := 0, nextSpanId := 1, spanMap := [(0, sampleSpan)],
    log := [], totalTokens := 0, totalCost := 0, endedSpans := [] }

/-- Witness for C10 at a concrete state with the tracer unset. -/
theorem C10_tool_end_has_no_tracer_guard_witness :
    on_llm_start sampleStateNoTracer (.serializable ("s")) [("p")] 0 none
        = (sampleStateNoTracer, none)
    ∧ on_llm_end sampleStateNoTracer ⟨none, []⟩ 0 = (sampleStateNoTracer, none)
    ∧ on_chain_start sampleStateNoTracer (.serializable ("s")) (.serializable ("i")) 0 none
        = (sampleStateNoTracer, none)
    ∧ on_chain_end sampleStateNoTracer (.serializable ("o")) 0 = (sampleStateNoTracer, none)
    ∧ on_agent_action sampleStateNoTracer ("t") ("in") ("lg") 0 none
        = (sampleStateNoTracer, none)
    ∧ on_tool_start sampleStateNoTracer (.serializable ("s")) ("ti") 0 none
        = (sampleStateNoTracer, none)
    ∧ (on_tool_end sampleStateNoTracer ("out") 0).1.spanMap
        = mapRemove sampleStateNoTracer.spanMap 0
    ∧ mapGet (on_tool_end sampleStateNoTracer ("out") 0).1.spanMap 0 = none
    ∧ (on_tool_end sampleStateNoTracer ("out") 0).1.endedSpans
        = sampleStateNoTracer.endedSpans ++
          [{ sampleSpan with events := sampleSpan.events ++
              [{ name := "output", data := .strData ("out") }] }]
    ∧ (on_tool_end sampleStateNoTracer ("out") 0).2 = none :=
  C10_tool_end_has_no_tracer_guard sampleStateNoTracer 0 (.serializable ("s")) [("p")]
    ⟨none, []⟩ none (.serializable ("i")) (.serializable ("o"))
    ("t") ("in") ("lg") ("ti") ("out") sampleSpan rfl rfl rfl

/-- C5: on a model-call-end event, the OpenAI-backed tracing adapter first
lets the delegated token-accounting handler add the reported
`total_tokens` (42 here) and the model cost to its cumulative counters, and
then the generic tracing end logic logs a Trace Info record containing those
updated cumulative counters rounded to 3 decimal places — so the logged
token count includes the 42. -/
theorem C5_openai_token_accounting
    (st : HandlerState) (rid : RunId) (costFn : LLMResult → Rat)
    (response : LLMResult) (out : List (String × List (String × Int)))
    (usage : List (String × Int)) (s0 : Span)
    (hT : st.tracer = true)
    (hs : mapGet st.spanMap rid = some s0)
    (hout : response.llmOutput = some out)
    (husage : out.lookup ("token_usage") = some usage)
    (h42 : usage.lookup ("total_tokens") = some 42)
    (htok : st.totalTokens + 42 ≠ 0)
    (hcost : st.totalCost + costFn response ≠ 0) :
    (openAITracing_on_llm_end costFn st response rid).1.totalTokens = st.totalTokens + 42
    ∧ (openAITracing_on_llm_end costFn st response rid).1.totalCost
        = st.totalCost + costFn response
    ∧ (openAITracing_on_llm_end costFn st response rid).1.log = st.log ++
        [LogRecord.info
          { trace := s0.traceId, span := s0.spanId, action := "on_llm_end",
            outputs := joinGenerations response.generations,
            tokens := some (pythonRound3 (st.totalTokens + 42)),
            cost := some (pythonRound3 (st.totalCost + costFn response)) }]
    ∧ (openAITracing_on_llm_end costFn st response rid).2 = none := by
  unfold openAITracing_on_llm_end openAICallback_on_llm_end
  unfold on_llm_end on_llm_end_body
  simp [hout, husage, h42, hT, hs, htok, hcost, endSpanState, mapPop,
        mapGet_mapSet_self, mapRemove_mapSet]

/-- A concrete handler state with the tracer set and one registered span. -/
def sampleStateWithSpan : HandlerState :=
  { tracer := true, traceId := 0, nextSpanId := 1, spanMap := [(0, sampleSpan)],
    log := [], totalTokens := 0, totalCost := 0, endedSpans := [] }

/-- A model-end response reporting `total_tokens = 42`. -/
def sampleResponse42 : LLMResult :=
  { llmOutput := some [(("token_usage"), [(("total_tokens"), 42)])],
    generations := [[("hello")]] }

/-- A concrete stand-in for the external per-model price table. -/
def sampleCostFn : LLMResult → Rat := fun _ => 1

/-- Witness for C5 at a concrete state whose counters start at zero. -/
theorem C5_openai_token_accounting_witness :
    (openAITracing_on_llm_end sampleCostFn sampleStateWithSpan
        sampleResponse42 0).1.totalTokens = sampleStateWithSpan.totalTokens + 42
    ∧ (openAITracing_on_llm_end sampleCostFn sampleStateWithSpan
        sampleResponse42 0).1.totalCost
        = sampleStateWithSpan.totalCost + sampleCostFn sampleResponse42
    ∧ (openAITracing_on_llm_end sampleCostFn sampleStateWithSpan
        sampleResponse42 0).1.log = sampleStateWithSpan.log ++
        [LogRecord.info
          { trace := sampleSpan.traceId, span := sampleSpan.spanId,
            action := "on_llm_end",
            outputs := joinGenerations sampleResponse42.generations,
            tokens := some (pythonRound3 (sampleStateWithSpan.totalTokens + 42)),
            cost := some (pythonRound3 (sampleStateWithSpan.totalCost
                          + sampleCostFn sampleResponse42)) }]
    ∧ (openAITracing_on_llm_end sampleCostFn sampleStateWithSpan sampleResponse42 0).2
        = none :=
  C5_openai_token_accounting sampleStateWithSpan 0 sampleCostFn sampleResponse42
    [(("token_usage"), [(("total_tokens"), 42)])] [(("total_tokens"), 42)] sampleSpan
    rfl rfl rfl rfl rfl
    (by norm_num [sampleStateWithSpan])
    (by norm_num [sampleStateWithSpan, sampleCostFn])

/-- C3: a `BuiltinsWrapper` scope with print- and input-wrapping enabled
restores the original `print` and `input` bindings on scope exit on every
exit path — both when the wrapped body completes normally and when it
raises (in which case the exception still propagates, after restoration). -/
theorem C3_builtins_restored_on_every_exit
    (w : BuiltinsWrapper) (b : BuiltinsState)
    (body : BuiltinsState → BuiltinsState × Option PyErr)
    (hp : w.wrapPrint = true) (hi : w.wrapInput = true) :
    (withBuiltinsWrapper w b body).1.printFn = b.printFn
    ∧ (withBuiltinsWrapper w b body).1.inputFn = b.inputFn
    ∧ (withBuiltinsWrapper w b body).2
        = (body { printFn := .printWrapperFn, inputFn := .inputWrapperFn }).2 := by
  obtain ⟨bp, bi⟩ := b
  unfold withBuiltinsWrapper BuiltinsWrapper.enterScope BuiltinsWrapper.exitScope
  simp [hp, hi]

/-- A `BuiltinsWrapper` as constructed with both wrap flags set. -/
def sampleWrapper : BuiltinsWrapper := { wrapPrint := true, wrapInput := true }

/-- Concrete original `print`/`input` bindings. -/
def sampleBuiltins : BuiltinsState := { printFn := .original 1, inputFn := .original 2 }

/-- A wrapped body that rebinds both builtins itself and then raises. -/
def sampleRaisingBody : BuiltinsState → BuiltinsState × Option PyErr :=
  fun _ => ({ printFn := .original 9, inputFn := .original 9 }, some PyErr.typeError)

/-- Witness for C3: a body that raises (and has itself rebound the
builtins) still leaves the original bindings restored on exit. -/
theorem C3_builtins_restored_on_every_exit_witness :
    (withBuiltinsWrapper sampleWrapper sampleBuiltins sampleRaisingBody).1.printFn
        = sampleBuiltins.printFn
    ∧ (withBuiltinsWrapper sampleWrapper sampleBuiltins sampleRaisingBody).1.inputFn
        = sampleBuiltins.inputFn
    ∧ (withBuiltinsWrapper sampleWrapper sampleBuiltins sampleRaisingBody).2
        = (sampleRaisingBody { printFn := .printWrapperFn, inputFn := .inputWrapperFn }).2 :=
  C3_builtins_restored_on_every_exit sampleWrapper sampleBuiltins sampleRaisingBody rfl rfl

/-- C4: when the output-shaping model rejects a token (or text chunk) with a
validation error, the WebSocket streaming handlers still send a JSON message
whose `result` field is exactly that token and whose `error` field is empty,
and no exception propagates to the caller. -/
theorem C4_ws_validation_fallback
    (outputModel : String → Except PyErr JsonObj)
    (sent : List JsonObj) (token text : String)
    (h1 : outputModel token = .error .validationError)
    (h2 : outputModel text = .error .validationError) :
    ws_on_llm_new_token outputModel sent token
        = .ok (sent ++ [[(("result"), token), (("error"), "")]])
    ∧ (([(("result"), token), (("error"), "")] : JsonObj).lookup ("result") = some token)
    ∧ ws_on_text outputModel sent text
        = .ok (sent ++ [[(("result"), text), (("error"), "")]]) := by
  refine ⟨?_, ?_, ?_⟩ <;> simp [ws_on_llm_new_token, ws_on_text, h1, h2, List.lookup]

/-- An output-shaping model that rejects every value with a validation error. -/
def sampleRejectingModel : String → Except PyErr JsonObj :=
  fun _ => .error PyErr.validationError

/-- Witness for C4 at a concrete rejected token and text chunk. -/
theorem C4_ws_validation_fallback_witness :
    ws_on_llm_new_token sampleRejectingModel [] ("tok")
        = .ok ([] ++ [[(("result"), ("tok")), (("error"), "")]])
    ∧ (([(("result"), ("tok")), (("error"), "")] : JsonObj).lookup ("result") = some ("tok"))
    ∧ ws_on_text sampleRejectingModel [] ("txt")
        = .ok ([] ++ [[(("result"), ("txt")), (("error"), "")]]) :=
  C4_ws_validation_fallback sampleRejectingModel [] ("tok") ("txt") rfl rfl

/-- C7: every coroutine-shaped lifecycle method of the asynchronous tracing
adapter, awaited, performs exactly what the synchronous adapter's
corresponding handler performs on the same arguments: the async variant is a
calling-convention wrapper with no behaviour of its own. -/
theorem C7_async_adapter_delegates
    (st : HandlerState) (ser inputs outputs : PyDict) (prompts : List String)
    (response : LLMResult) (rid : RunId) (pr : Option RunId)
    (tool toolInput logText inputStr output : String) :
    (async_on_llm_start st ser prompts rid pr).awaited = on_llm_start st ser prompts rid pr
    ∧ (async_on_llm_end st response rid).awaited = on_llm_end st response rid
    ∧ (async_on_chain_start st ser inputs rid pr).awaited = on_chain_start st ser inputs rid pr
    ∧ (async_on_chain_end st outputs rid).awaited = on_chain_end st outputs rid
    ∧ (async_on_agent_action st tool toolInput logText rid pr).awaited
        = on_agent_action st tool toolInput logText rid pr
    ∧ (async_on_tool_start st ser inputStr rid pr).awaited = on_tool_start st ser inputStr rid pr
    ∧ (async_on_tool_end st output rid).awaited = on_tool_end st output rid :=
  ⟨rfl, rfl, rfl, rfl, rfl, rfl, rfl⟩

theorem callback_of_invalidInstance (tiers : List String) (cfg : JCloudConfig)
    (i : String) (hv : validate_jcloud_config tiers cfg = some (ConfigError.invalidInstance i)) :
    validate_jcloud_config_callback tiers (some cfg)
      = CallbackResult.badParameter (invalidInstanceMessage i) := by
  show (match validate_jcloud_config tiers cfg with
        | some (ConfigError.invalidInstance i) =>
            CallbackResult.badParameter (invalidInstanceMessage i)
        | some (ConfigError.invalidAutoscaleMin m) =>
            CallbackResult.badParameter (invalidAutoscaleMinMessage m)
        | none => CallbackResult.ok cfg)
      = CallbackResult.badParameter (invalidInstanceMessage i)
  rw [hv]

/-- C6: a Deployment Config containing an instance tier outside the
recognized set makes the Config Validator raise the invalid-instance
condition carrying an offending tier value, which the CLI callback converts
into a `BadParameter` whose message names that tier and points at the
documentation; a config option with no value is a no-op. -/
theorem C6_invalid_instance_rejected
    (tiers : List String) (cfg : JCloudConfig)
    (h : ∃ i, i ∈ cfg.instances ∧ i ∉ tiers) :
    (∃ i, i ∈ cfg.instances ∧ i ∉ tiers
       ∧ validate_jcloud_config tiers cfg = some (ConfigError.invalidInstance i)
       ∧ validate_jcloud_config_callback tiers (some cfg)
           = CallbackResult.badParameter (invalidInstanceMessage i))
    ∧ validate_jcloud_config_callback tiers none = CallbackResult.noValue := by
  constructor
  · have hsome : (cfg.instances.find? fun i => !(tiers.contains i)).isSome := by
      rw [List.find?_isSome]
      obtain ⟨i, hmem, hnot⟩ := h
      exact ⟨i, hmem, by simpa using hnot⟩
    obtain ⟨i, hfind⟩ := Option.isSome_iff_exists.mp hsome
    have hmem := List.mem_of_find?_eq_some hfind
    have hp := List.find?_some hfind
    refine ⟨i, hmem, by simpa using hp, ?_, ?_⟩
    · unfold validate_jcloud_config
      rw [hfind]
    · refine callback_of_invalidInstance tiers cfg i ?_
      unfold validate_jcloud_config
      rw [hfind]
  · rfl

/-- Witness for C6: config with tier `gpu-zz`, recognized set `{C2, C3}`. -/
theorem C6_invalid_instance_rejected_witness :
    (∃ i, i ∈ (⟨[("gpu-zz")], [0]⟩ : JCloudConfig).instances ∧ i ∉ [("C2"), ("C3")]
       ∧ validate_jcloud_config [("C2"), ("C3")] ⟨[("gpu-zz")], [0]⟩
           = some (ConfigError.invalidInstance i)
       ∧ validate_jcloud_config_callback [("C2"), ("C3")] (some ⟨[("gpu-zz")], [0]⟩)
           = CallbackResult.badParameter (invalidInstanceMessage i))
    ∧ validate_jcloud_config_callback [("C2"), ("C3")] none = CallbackResult.noValue :=
  C6_invalid_instance_rejected [("C2"), ("C3")] ⟨[("gpu-zz")], [0]⟩
    ⟨("gpu-zz"), by simp, by simp⟩

/-- C8: within one `serve_on_jcloud` invocation, the push of the artifact
strictly precedes the flow submission, which strictly precedes status
polling, with no two stage intervals overlapping (each stage finishes
before the next starts, and each occurs exactly once); and the gateway
identifier submitted in the flow is the pushed gateway identifier joined
with `:` and the per-push random tag (the same tag that was pushed). -/
theorem C8_deploy_pipeline_ordering
    (env : JCloudEnv) (module name : String) (requirements : Option (List String))
    (appId : Option String) (version : String) (timeout : Nat)
    (platform : Option String) (config : Option String) (verbose : Bool) :
    (serve_on_jcloud env module name requirements appId version timeout platform config
        verbose).trace
      = [DeployEvent.stageStart .pushStage, DeployEvent.stageFinish .pushStage,
         DeployEvent.stageStart .submitStage, DeployEvent.stageFinish .submitStage,
         DeployEvent.stageStart .pollStage, DeployEvent.stageFinish .pollStage]
    ∧ (serve_on_jcloud env module name requirements appId version timeout platform config
        verbose).trace.indexOf (DeployEvent.stageFinish .pushStage)
        < (serve_on_jcloud env module name requirements appId version timeout platform config
            verbose).trace.indexOf (DeployEvent.stageStart .submitStage)
    ∧ (serve_on_jcloud env module name requirements appId version timeout platform config
        verbose).trace.indexOf (DeployEvent.stageFinish .submitStage)
        < (serve_on_jcloud env module name requirements appId version timeout platform config
            verbose).trace.indexOf (DeployEvent.stageStart .pollStage)
    ∧ (serve_on_jcloud env module name requirements appId version timeout platform config
        verbose).trace.count (DeployEvent.stageStart .pushStage) = 1
    ∧ (serve_on_jcloud env module name requirements appId version timeout platform config
        verbose).trace.count (DeployEvent.stageStart .submitStage) = 1
    ∧ (serve_on_jcloud env module name requirements appId version timeout platform config
        verbose).trace.count (DeployEvent.stageStart .pollStage) = 1
    ∧ (serve_on_jcloud env module name requirements appId version timeout platform config
        verbose).pushedArgs.tag = env.randomTag
    ∧ (serve_on_jcloud env module name requirements appId version timeout platform config
        verbose).submittedFlow.gatewayId
        = (env.push (serve_on_jcloud env module name requirements appId version timeout
            platform config verbose).pushedArgs).1 ++ ":" ++ env.randomTag := by
  have ht : (serve_on_jcloud env module name requirements appId version timeout platform
      config verbose).trace
      = [DeployEvent.stageStart .pushStage, DeployEvent.stageFinish .pushStage,
         DeployEvent.stageStart .submitStage, DeployEvent.stageFinish .submitStage,
         DeployEvent.stageStart .pollStage, DeployEvent.stageFinish .pollStage] := rfl
  refine ⟨ht, ?_, ?_, ?_, ?_, ?_, rfl, rfl⟩ <;> rw [ht] <;> decide

/-- C9: the `list` command invoked without a `--phase` argument passes to
the listing operation exactly the comma-joined five-value phase set
`Serving, Failed, Starting, Updating, Paused` — no more, no fewer — and the
name filter unchanged. -/
theorem C9_default_list_phase_filter (name : Option String) :
    (list_command none name).phase
        = String.intercalate (",")
            [("Serving"), ("Failed"), ("Starting"), ("Updating"), ("Paused")]
    ∧ (list_command none name).phase = ("Serving,Failed,Starting,Updating,Paused")
    ∧ (list_command none name).name = name := by
  refine ⟨rfl, ?_, rfl⟩
  show defaultPhaseFilter = ("Serving,Failed,Starting,Updating,Paused")
  decide
